import Mathlib

/-!
Shallow embedding of the resilient HTTP client in
`user_frontend/src/services/api.js` (the full implementation with
interceptors, retry and error classification), together with the parts of
`user_frontend/src/config/api.config.js` it reads.

JavaScript objects are modelled as insertion-ordered association lists,
JSON values as an inductive type, and the classified errors (`ApiError`,
`NetworkError`, `TimeoutError`) as a record carrying the fields the client
inspects (`name`, `message`, `status`, `code`, `details`).
-/

/-- A JSON value, as produced by `response.json()`. -/
inductive Json where
  | null : Json
  | bool (b : Bool) : Json
  | num (n : Int) : Json
  | str (s : String) : Json
  | arr (elems : List Json) : Json
  | obj (fields : List (String × Json)) : Json

/-- JavaScript truthiness of a JSON value (`if (v)`).  An absent field is
handled separately by the callers; `[]` and an empty object are truthy. -/
def truthy : Json → Bool
  | .null => false
  | .bool b => b
  | .num n => n != 0
  | .str s => s != ""
  | .arr _ => true
  | .obj _ => true

/-- JavaScript `String(v)` coercion, for the cases the client exercises
(error messages built from body fields and `loc` path segments). -/
def jsToString : Json → String
  | .null => "null"
  | .bool b => if b then "true" else "false"
  | .num n => toString n
  | .str s => s
  | .arr _ => ""
  | .obj _ => "[object Object]"

/-- Property read on a non-`null` JSON value (`v.k`); `none` models
`undefined` (reads on non-object primitives do not throw in JS).  A read
on `null` throws a raw `TypeError`; the two places the client can perform
one (`errorData.error` on a `null` body, `error.loc` on a `null` entry)
are modelled at the call sites `handleErrorResponse` and `locKey`. -/
def getField (j : Json) (k : String) : Option Json :=
  match j with
  | .obj fields => (fields.find? (fun p => p.fst == k)).map (fun p => p.snd)
  | _ => none

/-- Truthiness `Boolean(v.k)`: the field exists and is truthy. -/
def truthyField (j : Json) (k : String) : Bool :=
  match getField j k with
  | some v => truthy v
  | none => false

/-- Property lookup in an insertion-ordered object. -/
def lookupProp {α : Type} (m : List (String × α)) (k : String) : Option α :=
  (m.find? (fun p => p.fst == k)).map (fun p => p.snd)

/-- JavaScript property assignment `m[k] = v`: updates in place when the key
exists (keeping insertion order), appends otherwise. -/
def setProp {α : Type} (m : List (String × α)) (k : String) (v : α) :
    List (String × α) :=
  if m.any (fun p => p.fst == k) then
    m.map (fun p => if p.fst == k then (k, v) else p)
  else m ++ [(k, v)]

/-- Object spread `\x7b ...a, ...b \x7d`: fields of `b` overwrite those of
`a` in place, new fields are appended in order. -/
def mergeProps {α : Type} (a b : List (String × α)) : List (String × α) :=
  b.foldl (fun acc p => setProp acc p.fst p.snd) a

/-- JavaScript `delete m[k]`, keeping the order of the other properties. -/
def deleteProp {α : Type} (m : List (String × α)) (k : String) :
    List (String × α) :=
  m.filter (fun p => p.fst != k)

/-- JavaScript `s.includes(pat)` substring test. -/
def strIncludes (s pat : String) : Bool :=
  (List.range (s.length + 1)).any
    (fun i => (s.toList.drop i).take pat.length == pat.toList)

/-- The error value seen by `retryRequest` / the interceptors: the fields of
`ApiError`, `NetworkError` and `TimeoutError` from `api.js` that the client
inspects.  `status = none` models an error without a `status` property. -/
structure JsError where
  name : String
  message : String
  status : Option Nat := none
  code : Option String := none
  details : Json := .obj []

/-- Constructor `new ApiError(message, status, code, details)`.  The JS class stores the
raw `code` value; the client only ever passes string literals, modelled as
`String`. -/
def mkApiError (message : String) (status : Nat) (code : String)
    (details : Json) : JsError :=
  { name := "ApiError", message := message, status := some status,
    code := some code, details := details }

/-- The error `new NetworkError('Unable to connect to server')` as thrown by the
request function. -/
def networkError : JsError :=
  { name := "NetworkError", message := "Unable to connect to server" }

/-- The error `new TimeoutError('Request timed out')` as thrown by the request
function on abort. -/
def timeoutError : JsError :=
  { name := "TimeoutError", message := "Request timed out" }

/-- The raw `SyntaxError` thrown by `response.json()` on a body that is not
valid JSON; the catch block in `requestFn` rethrows it unchanged. -/
def jsonSyntaxError : JsError :=
  { name := "SyntaxError", message := "Unexpected end of JSON input" }

/-- Fallback read `v.k || fallback` coerced to a string (`message`/`code` construction in
`handleErrorResponse`). -/
def fieldOrStr (v : Json) (k : String) (fallback : String) : String :=
  match getField v k with
  | some x => if truthy x then jsToString x else fallback
  | none => fallback

/-- Fallback read `v.k || fallback` for a raw JSON value (`details` construction). -/
def fieldOrJson (v : Json) (k : String) (fallback : Json) : Json :=
  match getField v k with
  | some x => if truthy x then x else fallback
  | none => fallback

/-- The raw `TypeError` thrown by a property read on `null` (JS
`null.prop`), as when the parsed body itself or a `detail` entry is JSON
`null`.  It carries no `status`. -/
def typeErrorNullRead (prop : String) : JsError :=
  { name := "TypeError",
    message := "Cannot read properties of null (reading '" ++ prop ++
      "')" }

/-- The raw `TypeError` thrown by `error.loc?.join('.')` when `loc` is a
truthy non-array (strings, numbers and plain objects have no `join`
method).  It carries no `status`. -/
def typeErrorJoinNotFunction : JsError :=
  { name := "TypeError", message := "error.loc?.join is not a function" }

/-- The key `error.loc?.join('.') || 'unknown'` for one validation entry.
A `null` entry throws the raw `TypeError` of reading `loc` on `null`; a
`loc` that is `null`/absent (the optional chain) yields `'unknown'`, as
does a join producing the empty string; a truthy non-array `loc` throws
the raw `join`-is-not-a-function `TypeError`. -/
def locKey (entry : Json) : Except JsError String :=
  match entry with
  | .null => .error (typeErrorNullRead "loc")
  | _ =>
      match getField entry "loc" with
      | some (.arr xs) =>
          let joined := String.intercalate "." (xs.map jsToString)
          .ok (if joined == "" then "unknown" else joined)
      | some .null => .ok "unknown"
      | some _ => .error typeErrorJoinNotFunction
      | none => .ok "unknown"

/-- The `forEach` loop of `handleErrorResponse` building `fieldErrors`:
`fieldErrors[error.loc?.join('.') || 'unknown'] = error.msg`.  A missing
`msg` stores `undefined`, modelled as `Json.null`; a throw from any entry
aborts the iteration and propagates. -/
def fieldErrorsLoop (entries : List Json) (acc : List (String × Json)) :
    Except JsError (List (String × Json)) :=
  match entries with
  | [] => .ok acc
  | e :: rest =>
      match locKey e with
      | .error te => .error te
      | .ok field =>
          fieldErrorsLoop rest
            (setProp acc field ((getField e "msg").getD .null))

/-- The `fieldErrors` accumulation over a `detail` list, starting empty. -/
def fieldErrorsOf (entries : List Json) :
    Except JsError (List (String × Json)) :=
  fieldErrorsLoop entries []

/-- The `error`/`detail` if-chain of `handleErrorResponse`, reached once
the parsed body is known to be non-`null` (so its property reads cannot
throw; only the validation `forEach` still can). -/
def classifyErrorBody (status : Nat) (errorData : Json) : JsError :=
  if truthyField errorData "error" then
    let errVal := (getField errorData "error").getD .null
    mkApiError (fieldOrStr errVal "message" "An error occurred")
      status (fieldOrStr errVal "code" "API_ERROR")
      (fieldOrJson errVal "details" (.obj []))
  else if truthyField errorData "detail" then
    match (getField errorData "detail").getD .null with
    | .arr entries =>
        match fieldErrorsOf entries with
        | .error te => te
        | .ok fe =>
            mkApiError "Validation failed" status "VALIDATION_ERROR"
              (.obj [("fieldErrors", .obj fe)])
    | d => mkApiError (jsToString d) status "API_ERROR" (.obj [])
  else
    mkApiError "An unexpected error occurred" status "UNKNOWN_ERROR"
      (.obj [])

/-- Classifier `ApiClient.handleErrorResponse(response)`: the value it
throws for a non-2xx response.  `body = none` models a body that fails to
parse as JSON (the inner `try` catches it and throws the generic HTTP
error); a body parsing to JSON `null` throws the raw `TypeError` of
reading `error` on `null`; a throw inside the validation `forEach`
propagates raw. -/
def handleErrorResponse (status : Nat) (statusText : String)
    (body : Option Json) : JsError :=
  match body with
  | none =>
      mkApiError ("HTTP " ++ toString status ++ ": " ++ statusText)
        status "HTTP_ERROR" (.obj [])
  | some .null => typeErrorNullRead "error"
  | some errorData => classifyErrorBody status errorData

/-! ## Browser state: storage, location, and the 401 side effect -/

/-- Key `CONFIG.STORAGE_KEYS.SESSION_TOKEN` from `api.config.js`. -/
def SESSION_TOKEN : String := "auth_token"

/-- Key `CONFIG.STORAGE_KEYS.USER_DATA` from `api.config.js`. -/
def USER_DATA : String := "user_data"

/-- The mutable browser environment the client touches: the persistent
key-value store, `window.location.pathname`, the assigned
`window.location.href` (`none` until a redirect happens), and the trace of
`storage.remove` calls (to count clears). -/
structure ClientState where
  store : List (String × String)
  path : String
  href : Option String
  removals : List String

/-- Read `storage.get(k)`. -/
def storageGet (s : ClientState) (k : String) : Option String :=
  lookupProp s.store k

/-- Removal `storage.remove(k)`, recorded in the removal trace. -/
def storageRemove (s : ClientState) (k : String) : ClientState :=
  { s with store := deleteProp s.store k, removals := s.removals ++ [k] }

/-- Hexadecimal digit (uppercase), for percent-encoding. -/
def hexDigit (n : Nat) : Char :=
  if n < 10 then Char.ofNat (48 + n) else Char.ofNat (55 + n)

/-- Percent escape of one UTF-8 byte. -/
def percentByte (b : Nat) : String :=
  "%" ++ String.mk [hexDigit (b / 16), hexDigit (b % 16)]

/-- UTF-8 bytes of a code point. -/
def utf8Bytes (n : Nat) : List Nat :=
  if n < 128 then [n]
  else if n < 2048 then [192 + n / 64, 128 + n % 64]
  else if n < 65536 then [224 + n / 4096, 128 + (n / 64) % 64, 128 + n % 64]
  else [240 + n / 262144, 128 + (n / 4096) % 64, 128 + (n / 64) % 64,
        128 + n % 64]

/-- Characters `encodeURIComponent` leaves unescaped:
ASCII alphanumerics and `-_.!~*'()`. -/
def uriUnreserved (c : Char) : Bool :=
  c.isAlphanum ||
    c ∈ ['-', '_', '.', '!', '~', '*', Char.ofNat 39, '(', ')']

/-- The platform `encodeURIComponent`, used to build the login redirect. -/
def encodeURIComponent (s : String) : String :=
  String.join (s.toList.map (fun c =>
    if uriUnreserved c then String.mk [c]
    else String.join ((utf8Bytes c.toNat).map percentByte)))

/-- Side effect `ApiClient.handleUnauthorized()`: clear the stored token and cached
user, then redirect to `/login?redirect=<current path>` unless already on
`/login` or `/register`. -/
def handleUnauthorized (s : ClientState) : ClientState :=
  let s1 := storageRemove s SESSION_TOKEN
  let s2 := storageRemove s1 USER_DATA
  if s2.path ≠ "/login" ∧ s2.path ≠ "/register" then
    { s2 with
      href := some ("/login?redirect=" ++ encodeURIComponent s2.path) }
  else s2

/-- Handler `ApiClient.handleGlobalError(error)`: the 401 branch performs the
unauthorized side effect; the 403 / 5xx / 404 branches only write to the
console and leave the state unchanged. -/
def handleGlobalError (s : ClientState) (e : JsError) : ClientState :=
  if e.status == some 401 then handleUnauthorized s else s

/-- Chain `ApiClient.applyErrorInterceptors(error)` with the default interceptor
chain: the single default `onRejected` runs `handleGlobalError` and then
rejects; the rejection is caught and swallowed by the surrounding
`try`/`catch`. -/
def applyErrorInterceptors (s : ClientState) (e : JsError) : ClientState :=
  handleGlobalError s e

/-! ## One attempt of the request function -/

/-- What the platform does for one `fetch` attempt: a response arrives
(with its parsed body, `none` when the body is not valid JSON), the abort
controller fires (`AbortError`), or `fetch` rejects with its network
`TypeError`. -/
inductive FetchOutcome where
  | ok (status : Nat) (statusText : String) (body : Option Json)
  | abortError
  | fetchTypeError

/-- The body of `requestFn` in `ApiClient.request`, for one attempt:
non-2xx responses go through `handleErrorResponse`; 204 resolves to `null`
before any body parse; a 2xx body that fails to parse throws the raw
`SyntaxError` (the catch block only rewraps `AbortError` and the fetch
`TypeError`); successful data passes through the default response
interceptor chain, which is the identity. -/
def attemptResult : FetchOutcome → Except JsError Json
  | .ok status statusText body =>
      if 200 ≤ status ∧ status < 300 then
        if status = 204 then .ok .null
        else
          match body with
          | some data => .ok data
          | none => .error jsonSyntaxError
      else .error (handleErrorResponse status statusText body)
  | .abortError => .error timeoutError
  | .fetchTypeError => .error networkError

/-! ## The retry loop -/

/-- Ceiling `this.retryAttempts = CONFIG.API.RETRY_ATTEMPTS || 3` with
`RETRY_ATTEMPTS = 3` in `api.config.js`. -/
def CLIENT_RETRY_ATTEMPTS : Nat := 3

/-- Base delay `this.retryDelay = 1000`. -/
def CLIENT_RETRY_DELAY : Nat := 1000

/-- The combined guard of the two consecutive `throw` checks in
`ApiClient.retryRequest`: statuses 401/403/404/422, a `TimeoutError`, the
literal message `'Auth verification timeout'`, the attempt ceiling, and
messages containing `'Authentication'` or `'Token'`.  Both source checks
rethrow the error unchanged, so their disjunction is observationally the
single no-retry condition. -/
def noRetryCond (retryAttempts attempt : Nat) (e : JsError) : Bool :=
  e.status == some 401 || e.status == some 403 ||
  e.status == some 404 || e.status == some 422 ||
  e.name == "TimeoutError" ||
  e.message == "Auth verification timeout" ||
  decide (retryAttempts ≤ attempt) ||
  strIncludes e.message "Authentication" ||
  strIncludes e.message "Token"

/-- Outcome of the retry loop: the final result, the number of attempts
made from this call on, and the backoff delays awaited (in ms, in order). -/
structure RetryResult where
  result : Except JsError Json
  attempts : Nat
  delays : List Nat

/-- The loop `ApiClient.retryRequest(requestFn, attempt)` over a sequence of
per-attempt platform outcomes (`outcomes k` is what attempt `k` sees,
attempts numbered from 1 as in the source).  On a retryable failure it
awaits `retryDelay * 2^(attempt-1)` and recurses with `attempt + 1`. -/
def retryRequest (retryAttempts retryDelay : Nat)
    (outcomes : Nat → FetchOutcome) (attempt : Nat) : RetryResult :=
  match attemptResult (outcomes attempt) with
  | .ok v => { result := .ok v, attempts := 1, delays := [] }
  | .error e =>
      if h : noRetryCond retryAttempts attempt e then
        { result := .error e, attempts := 1, delays := [] }
      else
        let rest := retryRequest retryAttempts retryDelay outcomes
          (attempt + 1)
        { result := rest.result, attempts := rest.attempts + 1,
          delays := retryDelay * 2 ^ (attempt - 1) :: rest.delays }
termination_by retryAttempts - attempt
decreasing_by
  simp [noRetryCond, decide_eq_true_eq] at h
  omega

/-! ## The request pipeline -/

/-- Defaults `CONFIG.HEADERS` from `api.config.js`. -/
def CONFIG_HEADERS : List (String × String) :=
  [("Content-Type", "application/json"), ("Accept", "application/json")]

/-- The `options` object passed to `ApiClient.request`; `none` models an
absent field (so spreads can distinguish presence). -/
structure RequestOptions where
  method : Option String := none
  headers : Option (List (String × String)) := none
  body : Option Json := none
  timeout : Option Nat := none

/-- The request descriptor handed to the interceptors and to `fetch`. -/
structure RequestConfig where
  method : String
  headers : List (String × String)
  body : Option Json
  timeout : Option Nat

/-- The object literal in `ApiClient.request`:
`\x7b method: 'GET', headers: \x7b ...CONFIG.HEADERS, ...options.headers \x7d,
...options \x7d`.  The trailing spread of `options` overwrites the merged
`headers` whenever `options` itself carries a `headers` field, so the
defaults survive only when the caller supplied no headers. -/
def buildInitialConfig (options : RequestOptions) : RequestConfig :=
  let merged := mergeProps CONFIG_HEADERS (options.headers.getD [])
  { method := options.method.getD "GET"
    headers :=
      match options.headers with
      | some h => h
      | none => merged
    body := options.body
    timeout := options.timeout }

/-- A request interceptor: may transform the config or throw. -/
def Interceptor : Type := RequestConfig → Except String RequestConfig

/-- The default request interceptor installed by
`setupDefaultInterceptors`: injects `Authorization: Bearer <token>` into
the headers when a session token is in the store. -/
def authInterceptor (token : Option String) : Interceptor :=
  fun config =>
    match token with
    | some t =>
        .ok { config with
              headers := mergeProps config.headers
                [("Authorization", "Bearer " ++ t)] }
    | none => .ok config

/-- Chain `ApiClient.applyRequestInterceptors(config)`: folds the chain over the
config; a throwing interceptor is logged and swallowed, and the fold
continues from the config as of the last successful interceptor. -/
def applyRequestInterceptors (interceptors : List Interceptor)
    (config : RequestConfig) : RequestConfig :=
  interceptors.foldl
    (fun acc f => match f acc with | .ok c => c | .error _ => acc) config

/-- Everything observable about one `ApiClient.request` call. -/
structure RequestResult where
  dispatched : RequestConfig
  result : Except JsError Json
  attempts : Nat
  delays : List Nat
  state : ClientState
  errorChainRan : Bool

/-- Pipeline `ApiClient.request(endpoint, options)`: build the initial config, run
the request interceptor chain (the default auth interceptor first, then any
added ones), run `retryRequest` from attempt 1, and on a terminal error run
the error interceptor chain (whose default handler performs the 401 side
effect) before rethrowing. -/
def request (s : ClientState) (extraInterceptors : List Interceptor)
    (options : RequestOptions) (outcomes : Nat → FetchOutcome) :
    RequestResult :=
  let interceptors :=
    authInterceptor (storageGet s SESSION_TOKEN) :: extraInterceptors
  let config := applyRequestInterceptors interceptors
    (buildInitialConfig options)
  let r := retryRequest CLIENT_RETRY_ATTEMPTS CLIENT_RETRY_DELAY outcomes 1
  match r.result with
  | .ok v =>
      { dispatched := config, result := .ok v, attempts := r.attempts,
        delays := r.delays, state := s, errorChainRan := false }
  | .error e =>
      { dispatched := config, result := .error e, attempts := r.attempts,
        delays := r.delays, state := applyErrorInterceptors s e,
        errorChainRan := true }

/-- The inner options object built by `ApiClient.postForm`:
`\x7b method: 'POST', body: formData, headers, ...options \x7d` where
`headers` is a copy of `options.headers` with `Content-Type` deleted.  The
trailing spread restores the caller's original `headers` (deletion and all
other literal fields included) whenever `options` carries them. -/
def postFormOptions (formBody : Json) (options : RequestOptions) :
    RequestOptions :=
  let headers := deleteProp (options.headers.getD []) "Content-Type"
  { method := some (options.method.getD "POST")
    headers := some
      (match options.headers with
       | some h => h
       | none => headers)
    body := some (options.body.getD formBody)
    timeout := options.timeout }

/-- Wrapper `ApiClient.postForm(endpoint, formData, options)` on the singleton
client (no extra interceptors registered). -/
def postFormRun (s : ClientState) (formBody : Json)
    (options : RequestOptions) (outcomes : Nat → FetchOutcome) :
    RequestResult :=
  request s [] (postFormOptions formBody options) outcomes

/-! ## Helper lemmas -/

theorem retryRequest_ok (ra rd : Nat) (o : Nat → FetchOutcome)
    (attempt : Nat) (v : Json) (h : attemptResult (o attempt) = .ok v) :
    retryRequest ra rd o attempt =
      { result := .ok v, attempts := 1, delays := [] } := by
  rw [retryRequest, h]

theorem retryRequest_stop (ra rd : Nat) (o : Nat → FetchOutcome)
    (attempt : Nat) (e : JsError)
    (h : attemptResult (o attempt) = .error e)
    (hc : noRetryCond ra attempt e = true) :
    retryRequest ra rd o attempt =
      { result := .error e, attempts := 1, delays := [] } := by
  rw [retryRequest, h]
  simp [hc]

theorem retryRequest_step (ra rd : Nat) (o : Nat → FetchOutcome)
    (attempt : Nat) (e : JsError)
    (h : attemptResult (o attempt) = .error e)
    (hc : noRetryCond ra attempt e = false) :
    retryRequest ra rd o attempt =
      { result := (retryRequest ra rd o (attempt + 1)).result,
        attempts := (retryRequest ra rd o (attempt + 1)).attempts + 1,
        delays := rd * 2 ^ (attempt - 1) ::
          (retryRequest ra rd o (attempt + 1)).delays } := by
  rw [retryRequest, h]
  simp [hc]

theorem noRetryCond_false_lt (ra attempt : Nat) (e : JsError)
    (h : noRetryCond ra attempt e = false) : attempt < ra := by
  simp [noRetryCond, decide_eq_true_eq] at h
  omega

theorem noRetryCond_of_ceiling (ra attempt : Nat) (e : JsError)
    (h : ra ≤ attempt) : noRetryCond ra attempt e = true := by
  cases hcc : noRetryCond ra attempt e with
  | true => rfl
  | false =>
      have := noRetryCond_false_lt ra attempt e hcc
      omega

theorem retryRequest_attempts_pos (ra rd : Nat) (o : Nat → FetchOutcome) :
    ∀ n attempt, ra - attempt ≤ n →
      1 ≤ (retryRequest ra rd o attempt).attempts := by
  intro n
  induction n with
  | zero =>
      intro attempt h
      match he : attemptResult (o attempt) with
      | .ok v => rw [retryRequest_ok ra rd o attempt v he]
      | .error e =>
          have hc := noRetryCond_of_ceiling ra attempt e (by omega)
          rw [retryRequest_stop ra rd o attempt e he hc]
  | succ n ih =>
      intro attempt h
      match he : attemptResult (o attempt) with
      | .ok v => rw [retryRequest_ok ra rd o attempt v he]
      | .error e =>
          cases hc : noRetryCond ra attempt e with
          | true => rw [retryRequest_stop ra rd o attempt e he hc]
          | false =>
              rw [retryRequest_step ra rd o attempt e he hc]
              show 1 ≤ (retryRequest ra rd o (attempt + 1)).attempts + 1
              omega

theorem retryRequest_attempts_le (ra rd : Nat) (o : Nat → FetchOutcome) :
    ∀ n attempt, ra - attempt ≤ n →
      (retryRequest ra rd o attempt).attempts ≤ n + 1 := by
  intro n
  induction n with
  | zero =>
      intro attempt h
      match he : attemptResult (o attempt) with
      | .ok v => rw [retryRequest_ok ra rd o attempt v he]
      | .error e =>
          have hc := noRetryCond_of_ceiling ra attempt e (by omega)
          rw [retryRequest_stop ra rd o attempt e he hc]
  | succ n ih =>
      intro attempt h
      match he : attemptResult (o attempt) with
      | .ok v =>
          rw [retryRequest_ok ra rd o attempt v he]
          show 1 ≤ n + 1 + 1
          omega
      | .error e =>
          cases hc : noRetryCond ra attempt e with
          | true =>
              rw [retryRequest_stop ra rd o attempt e he hc]
              show 1 ≤ n + 1 + 1
              omega
          | false =>
              have hlt := noRetryCond_false_lt ra attempt e hc
              rw [retryRequest_step ra rd o attempt e he hc]
              have := ih (attempt + 1) (by omega)
              show (retryRequest ra rd o (attempt + 1)).attempts + 1 ≤
                n + 1 + 1
              omega

theorem locKey_error_shape (entry : Json) (te : JsError)
    (h : locKey entry = .error te) :
    te.name = "TypeError" ∧ te.status = none := by
  have hte : te = typeErrorNullRead "loc" ∨
      te = typeErrorJoinNotFunction := by
    cases entry
    case null => exact Or.inl (Except.error.inj h).symm
    all_goals
      simp only [locKey] at h
      split at h
      all_goals
        first
        | exact Except.noConfusion h
        | exact Or.inr (Except.error.inj h).symm
  rcases hte with rfl | rfl
  · exact ⟨rfl, rfl⟩
  · exact ⟨rfl, rfl⟩

theorem fieldErrorsLoop_error_shape :
    ∀ (entries : List Json) (acc : List (String × Json)) (te : JsError),
      fieldErrorsLoop entries acc = .error te →
      te.name = "TypeError" ∧ te.status = none := by
  intro entries
  induction entries with
  | nil =>
      intro acc te h
      exact Except.noConfusion h
  | cons e rest ih =>
      intro acc te h
      simp only [fieldErrorsLoop] at h
      cases hk : locKey e with
      | error te' =>
          rw [hk] at h
          have hte : te' = te := Except.error.inj h
          rw [← hte]
          exact locKey_error_shape e te' hk
      | ok field =>
          rw [hk] at h
          exact ih _ te h

/-- Boolean marker for a non-null body on which `classifyErrorBody` ends
in a raw `TypeError` from the validation `forEach`. -/
def classifyBodyThrows (errorData : Json) : Bool :=
  if truthyField errorData "error" then false
  else if truthyField errorData "detail" then
    match (getField errorData "detail").getD .null with
    | .arr entries =>
        match fieldErrorsOf entries with
        | .error _ => true
        | .ok _ => false
    | _ => false
  else false

theorem classifyErrorBody_cases (status : Nat) (errorData : Json) :
    ((classifyErrorBody status errorData).name = "ApiError" ∧
     (classifyErrorBody status errorData).status = some status ∧
     classifyBodyThrows errorData = false) ∨
    ((classifyErrorBody status errorData).name = "TypeError" ∧
     (classifyErrorBody status errorData).status = none ∧
     classifyBodyThrows errorData = true) := by
  unfold classifyErrorBody classifyBodyThrows
  split
  · exact Or.inl ⟨rfl, rfl, rfl⟩
  · split
    · split
      · rename_i entries heq
        cases hfe : fieldErrorsOf entries with
        | ok fe =>
            exact Or.inl ⟨rfl, rfl, rfl⟩
        | error te =>
            have hsh := fieldErrorsLoop_error_shape entries [] te hfe
            exact Or.inr ⟨hsh.1, hsh.2, rfl⟩
      · exact Or.inl ⟨rfl, rfl, rfl⟩
    · exact Or.inl ⟨rfl, rfl, rfl⟩

theorem handleErrorResponse_some_eq (status : Nat) (statusText : String)
    (errorData : Json) (hnn : errorData ≠ .null) :
    handleErrorResponse status statusText (some errorData) =
      classifyErrorBody status errorData := by
  cases errorData
  case null => exact absurd rfl hnn
  all_goals rfl

/-- Dichotomy of the classifier: either a status-carrying `ApiError`, or a
raw status-less `TypeError` from one of the throwing body shapes. -/
theorem handleErrorResponse_cases (status : Nat) (statusText : String)
    (body : Option Json) :
    ((handleErrorResponse status statusText body).name = "ApiError" ∧
     (handleErrorResponse status statusText body).status = some status) ∨
    ((handleErrorResponse status statusText body).name = "TypeError" ∧
     (handleErrorResponse status statusText body).status = none) := by
  cases body with
  | none => exact Or.inl ⟨rfl, rfl⟩
  | some errorData =>
      by_cases hnn : errorData = Json.null
      · subst hnn
        exact Or.inr ⟨rfl, rfl⟩
      · rw [handleErrorResponse_some_eq status statusText errorData hnn]
        rcases classifyErrorBody_cases status errorData with
          ⟨hn, hs, _⟩ | ⟨hn, hs, _⟩
        · exact Or.inl ⟨hn, hs⟩
        · exact Or.inr ⟨hn, hs⟩

/-- Every error thrown out of one attempt is either a classified HTTP
error from `handleErrorResponse`, the timeout error, the network error, or
the raw body-parse `SyntaxError` of a 2xx response. -/
theorem attemptResult_error_shape (o : FetchOutcome) (e : JsError)
    (h : attemptResult o = .error e) :
    (∃ st txt b, o = .ok st txt b ∧ ¬(200 ≤ st ∧ st < 300) ∧
      e = handleErrorResponse st txt b) ∨
    e = timeoutError ∨ e = networkError ∨ e = jsonSyntaxError := by
  cases o with
  | ok st txt b =>
      simp only [attemptResult] at h
      by_cases hst : 200 ≤ st ∧ st < 300
      · rw [if_pos hst] at h
        by_cases h204 : st = 204
        · rw [if_pos h204] at h
          cases h
        · rw [if_neg h204] at h
          cases b with
          | some d => cases h
          | none =>
              right; right; right
              exact (Except.error.inj h).symm
      · rw [if_neg hst] at h
        exact Or.inl ⟨st, txt, b, rfl, hst, (Except.error.inj h).symm⟩
  | abortError =>
      right; left
      exact (Except.error.inj h).symm
  | fetchTypeError =>
      right; right; left
      exact (Except.error.inj h).symm

/-- A transient failure in the sense of the spec's retry policy, restricted
to the code's auth-message carve-out: a 5xx classified error or the network
error, whose message is not the auth-timeout literal and does not contain
`'Authentication'` or `'Token'`. -/
def transientSafe (e : JsError) : Bool :=
  (decide (500 ≤ e.status.getD 0) || e.name == "NetworkError") &&
  !(e.message == "Auth verification timeout") &&
  !(strIncludes e.message "Authentication") &&
  !(strIncludes e.message "Token")

theorem noRetryCond_false_of_transientSafe (o : FetchOutcome) (e : JsError)
    (attempt : Nat) (h : attemptResult o = .error e)
    (ht : transientSafe e = true) (hlt : attempt < 3) :
    noRetryCond 3 attempt e = false := by
  simp only [transientSafe, Bool.and_eq_true, Bool.or_eq_true,
    Bool.not_eq_true', decide_eq_true_eq, beq_iff_eq] at ht
  obtain ⟨⟨⟨h5xx, hmsg1⟩, hmsg2⟩, hmsg3⟩ := ht
  rcases attemptResult_error_shape o e h with
    ⟨st, txt, b, _, hnot2xx, herr⟩ | rfl | rfl | rfl
  · rcases handleErrorResponse_cases st txt b with ⟨hn, hs⟩ | ⟨hn, hs⟩
    · have hname : e.name = "ApiError" := by
        rw [herr]; exact hn
      have hstatus : e.status = some st := by
        rw [herr]; exact hs
      have hst500 : 500 ≤ st := by
        rcases h5xx with h5 | hn5
        · rw [hstatus] at h5
          simpa using h5
        · rw [hname] at hn5
          exact absurd hn5 (by decide)
      simp only [noRetryCond, Bool.or_eq_false_iff]
      refine ⟨⟨⟨⟨⟨⟨⟨⟨?_, ?_⟩, ?_⟩, ?_⟩, ?_⟩, ?_⟩, ?_⟩, ?_⟩, ?_⟩
      · rw [hstatus]
        simpa using by omega
      · rw [hstatus]
        simpa using by omega
      · rw [hstatus]
        simpa using by omega
      · rw [hstatus]
        simpa using by omega
      · rw [hname]
        decide
      · simpa using hmsg1
      · simpa using by omega
      · exact hmsg2
      · exact hmsg3
    · have hstatus : e.status = none := by
        rw [herr]; exact hs
      have hname : e.name = "TypeError" := by
        rw [herr]; exact hn
      rcases h5xx with h5 | hn5
      · rw [hstatus] at h5
        simp only [Option.getD_none] at h5
        omega
      · rw [hname] at hn5
        exact absurd hn5 (by decide)
  · rcases h5xx with h5 | hn
    · exact absurd h5 (by decide)
    · exact absurd hn (by decide)
  · simp only [noRetryCond, Bool.or_eq_false_iff]
    refine ⟨⟨⟨⟨⟨⟨⟨⟨?_, ?_⟩, ?_⟩, ?_⟩, ?_⟩, ?_⟩, ?_⟩, ?_⟩, ?_⟩
    · decide
    · decide
    · decide
    · decide
    · decide
    · decide
    · simpa using by omega
    · decide
    · decide
  · rcases h5xx with h5 | hn
    · exact absurd h5 (by decide)
    · exact absurd hn (by decide)

theorem request_attempts_eq (s : ClientState) (ints : List Interceptor)
    (opts : RequestOptions) (outcomes : Nat → FetchOutcome) :
    (request s ints opts outcomes).attempts =
      (retryRequest CLIENT_RETRY_ATTEMPTS CLIENT_RETRY_DELAY outcomes
        1).attempts := by
  simp only [request]
  split <;> rfl

theorem request_delays_eq (s : ClientState) (ints : List Interceptor)
    (opts : RequestOptions) (outcomes : Nat → FetchOutcome) :
    (request s ints opts outcomes).delays =
      (retryRequest CLIENT_RETRY_ATTEMPTS CLIENT_RETRY_DELAY outcomes
        1).delays := by
  simp only [request]
  split <;> rfl

theorem request_result_eq (s : ClientState) (ints : List Interceptor)
    (opts : RequestOptions) (outcomes : Nat → FetchOutcome) :
    (request s ints opts outcomes).result =
      (retryRequest CLIENT_RETRY_ATTEMPTS CLIENT_RETRY_DELAY outcomes
        1).result := by
  simp only [request]
  split <;> simp_all

theorem request_dispatched_eq (s : ClientState) (ints : List Interceptor)
    (opts : RequestOptions) (outcomes : Nat → FetchOutcome) :
    (request s ints opts outcomes).dispatched =
      applyRequestInterceptors
        (authInterceptor (storageGet s SESSION_TOKEN) :: ints)
        (buildInitialConfig opts) := by
  simp only [request]
  split <;> rfl

theorem request_error_state (s : ClientState) (ints : List Interceptor)
    (opts : RequestOptions) (outcomes : Nat → FetchOutcome) (e : JsError)
    (h : (retryRequest CLIENT_RETRY_ATTEMPTS CLIENT_RETRY_DELAY outcomes
      1).result = .error e) :
    (request s ints opts outcomes).state = applyErrorInterceptors s e := by
  simp only [request]
  split
  · simp_all
  · rename_i e' heq
    rw [heq] at h
    cases h
    rfl

theorem request_ok_no_error_chain (s : ClientState)
    (ints : List Interceptor) (opts : RequestOptions)
    (outcomes : Nat → FetchOutcome) (v : Json)
    (h : (retryRequest CLIENT_RETRY_ATTEMPTS CLIENT_RETRY_DELAY outcomes
      1).result = .ok v) :
    (request s ints opts outcomes).errorChainRan = false ∧
    (request s ints opts outcomes).state = s := by
  simp only [request]
  split
  · exact ⟨rfl, rfl⟩
  · rename_i e' heq
    rw [heq] at h
    cases h

theorem lookupProp_deleteProp_same {α : Type} (m : List (String × α))
    (k : String) : lookupProp (deleteProp m k) k = none := by
  have hfind : (deleteProp m k).find? (fun p => p.fst == k) = none := by
    rw [List.find?_eq_none]
    intro x hx
    have hmem := List.mem_filter.mp hx
    simpa using hmem.2
  simp [lookupProp, hfind]

theorem lookupProp_deleteProp_ne {α : Type} (m : List (String × α))
    (k k' : String) (h : k ≠ k') :
    lookupProp (deleteProp m k') k = lookupProp m k := by
  induction m with
  | nil => rfl
  | cons hd tl ih =>
      simp only [deleteProp, List.filter_cons] at ih ⊢
      by_cases ha : hd.fst = k'
      · have h1 : (hd.fst != k') = false := by simp [ha]
        have h2 : (hd.fst == k) = false := by
          have : hd.fst ≠ k := fun hx => h (hx ▸ ha)
          simpa using this
        rw [h1]
        simp only [Bool.false_eq_true, if_false]
        rw [ih]
        simp [lookupProp, List.find?_cons, h2]
      · have h1 : (hd.fst != k') = true := by simpa using ha
        rw [h1]
        simp only [if_true]
        by_cases hb : hd.fst = k
        · have h2 : (hd.fst == k) = true := by simpa using hb
          simp [lookupProp, List.find?_cons, h2]
        · have h2 : (hd.fst == k) = false := by simpa using hb
          simp only [lookupProp, List.find?_cons, h2]
          simpa [lookupProp] using ih

/-! ## Claim theorems -/

/-- C1: for every request whose attempt fails with an error of kind
unauthorized (401), forbidden (403), not-found (404), validation (422), or
timeout, the client makes exactly one attempt: no retry (and so no backoff
delay) is performed and the error is raised to the caller immediately. -/
theorem request_single_attempt_on_nonretryable_kind (s : ClientState)
    (ints : List Interceptor) (opts : RequestOptions)
    (outcomes : Nat → FetchOutcome) (e : JsError)
    (he : attemptResult (outcomes 1) = .error e)
    (hk : e.status = some 401 ∨ e.status = some 403 ∨
      e.status = some 404 ∨ e.status = some 422 ∨
      e.name = "TimeoutError") :
    (request s ints opts outcomes).attempts = 1 ∧
    (request s ints opts outcomes).result = .error e ∧
    (request s ints opts outcomes).delays = [] := by
  have hc : noRetryCond CLIENT_RETRY_ATTEMPTS 1 e = true := by
    rcases hk with h | h | h | h | h <;>
      simp [noRetryCond, h]
  have hr := retryRequest_stop CLIENT_RETRY_ATTEMPTS CLIENT_RETRY_DELAY
    outcomes 1 e he hc
  rw [request_attempts_eq, request_result_eq, request_delays_eq, hr]
  exact ⟨rfl, rfl, rfl⟩

def c1OutcomesW : Nat → FetchOutcome :=
  fun _ => .ok 404 "Not Found" none

def c1ErrW : JsError :=
  mkApiError "HTTP 404: Not Found" 404 "HTTP_ERROR" (.obj [])

def stateW : ClientState :=
  { store := [("auth_token", "tok123"), ("user_data", "u")],
    path := "/dashboard", href := none, removals := [] }

theorem request_single_attempt_on_nonretryable_kind_witness :
    attemptResult (c1OutcomesW 1) = .error c1ErrW ∧
    ((request stateW [] {} c1OutcomesW).attempts = 1 ∧
     (request stateW [] {} c1OutcomesW).result = .error c1ErrW ∧
     (request stateW [] {} c1OutcomesW).delays = []) :=
  ⟨rfl, request_single_attempt_on_nonretryable_kind stateW [] {}
    c1OutcomesW c1ErrW rfl (Or.inr (Or.inr (Or.inl rfl)))⟩

/-- C7: a request whose response has status 204 resolves successfully to
the empty result (`null`); error classification and the error interceptor
chain are never invoked, and the browser state is untouched. -/
theorem request_204_resolves_empty (s : ClientState)
    (ints : List Interceptor) (opts : RequestOptions)
    (outcomes : Nat → FetchOutcome) (txt : String) (body : Option Json)
    (h : outcomes 1 = .ok 204 txt body) :
    (request s ints opts outcomes).result = .ok .null ∧
    (request s ints opts outcomes).attempts = 1 ∧
    (request s ints opts outcomes).errorChainRan = false ∧
    (request s ints opts outcomes).state = s := by
  have har : attemptResult (outcomes 1) = .ok .null := by
    rw [h]
    rfl
  have hr := retryRequest_ok CLIENT_RETRY_ATTEMPTS CLIENT_RETRY_DELAY
    outcomes 1 .null har
  have hres : (retryRequest CLIENT_RETRY_ATTEMPTS CLIENT_RETRY_DELAY
      outcomes 1).result = .ok .null := by
    rw [hr]
  have hchain := request_ok_no_error_chain s ints opts outcomes .null hres
  refine ⟨?_, ?_, hchain.1, hchain.2⟩
  · rw [request_result_eq, hres]
  · rw [request_attempts_eq, hr]

def c7OutcomesW : Nat → FetchOutcome :=
  fun _ => .ok 204 "No Content" none

theorem request_204_resolves_empty_witness :
    c7OutcomesW 1 = .ok 204 "No Content" none ∧
    ((request stateW [] {} c7OutcomesW).result = .ok .null ∧
     (request stateW [] {} c7OutcomesW).attempts = 1 ∧
     (request stateW [] {} c7OutcomesW).errorChainRan = false ∧
     (request stateW [] {} c7OutcomesW).state = stateW) :=
  ⟨rfl, request_204_resolves_empty stateW [] {} c7OutcomesW
    "No Content" none rfl⟩

/-- C9: the retry loop always terminates (it is defined by well-founded
recursion on `retryAttempts - attempt`, decreasing by one per recursive
call exactly as the source increments `attempt` by one), and for every
sequence of outcomes the total number of attempts is between 1 and the
configured `retryAttempts` ceiling. -/
theorem request_attempt_count_bounded (s : ClientState)
    (ints : List Interceptor) (opts : RequestOptions)
    (outcomes : Nat → FetchOutcome) :
    1 ≤ (request s ints opts outcomes).attempts ∧
    (request s ints opts outcomes).attempts ≤ CLIENT_RETRY_ATTEMPTS := by
  rw [request_attempts_eq]
  constructor
  · exact retryRequest_attempts_pos CLIENT_RETRY_ATTEMPTS
      CLIENT_RETRY_DELAY outcomes 2 1 (by decide)
  · exact retryRequest_attempts_le CLIENT_RETRY_ATTEMPTS
      CLIENT_RETRY_DELAY outcomes 2 1 (by decide)

/-- C3 (amended): a request that terminates with a classified error
carrying status 401 (any 401 response except one whose body parses to
JSON `null`, which throws raw before classification) clears the stored
session token and cached user record exactly once (the removal trace
gains exactly those two entries), makes no retry after a first-attempt
401, and redirects to the login entry point with the current path
preserved as the `redirect` query parameter — unless already on `/login`
or `/register`, in which case no redirect happens. -/
theorem request_401_clears_session_once (s : ClientState)
    (ints : List Interceptor) (opts : RequestOptions)
    (outcomes : Nat → FetchOutcome) (e : JsError)
    (hres : (request s ints opts outcomes).result = .error e)
    (h401 : e.status = some 401)
    (hrm : s.removals = []) :
    (request s ints opts outcomes).state.removals =
      [SESSION_TOKEN, USER_DATA] ∧
    storageGet (request s ints opts outcomes).state SESSION_TOKEN = none ∧
    storageGet (request s ints opts outcomes).state USER_DATA = none ∧
    (s.path ≠ "/login" → s.path ≠ "/register" →
      (request s ints opts outcomes).state.href =
        some ("/login?redirect=" ++ encodeURIComponent s.path)) ∧
    ((s.path = "/login" ∨ s.path = "/register") →
      (request s ints opts outcomes).state.href = s.href) ∧
    (attemptResult (outcomes 1) = .error e →
      (request s ints opts outcomes).attempts = 1) := by
  have hresr : (retryRequest CLIENT_RETRY_ATTEMPTS CLIENT_RETRY_DELAY
      outcomes 1).result = .error e := by
    rw [← request_result_eq s ints opts outcomes]
    exact hres
  have hstate := request_error_state s ints opts outcomes e hresr
  have hglob : applyErrorInterceptors s e = handleUnauthorized s := by
    simp [applyErrorInterceptors, handleGlobalError, h401]
  rw [hstate, hglob]
  refine ⟨?_, ?_, ?_, ?_, ?_, ?_⟩
  · simp only [handleUnauthorized]
    split
    · simp [storageRemove, hrm]
    · simp [storageRemove, hrm]
  · simp only [handleUnauthorized]
    split
    · simp only [storageGet, storageRemove]
      rw [lookupProp_deleteProp_ne _ _ _ (by decide)]
      exact lookupProp_deleteProp_same s.store SESSION_TOKEN
    · simp only [storageGet, storageRemove]
      rw [lookupProp_deleteProp_ne _ _ _ (by decide)]
      exact lookupProp_deleteProp_same s.store SESSION_TOKEN
  · simp only [handleUnauthorized]
    split
    · simp only [storageGet, storageRemove]
      exact lookupProp_deleteProp_same _ USER_DATA
    · simp only [storageGet, storageRemove]
      exact lookupProp_deleteProp_same _ USER_DATA
  · intro hl hr2
    have hcond :
        (storageRemove (storageRemove s SESSION_TOKEN) USER_DATA).path ≠
          "/login" ∧
        (storageRemove (storageRemove s SESSION_TOKEN) USER_DATA).path ≠
          "/register" := ⟨hl, hr2⟩
    simp only [handleUnauthorized]
    rw [if_pos hcond]
    rfl
  · intro hor
    have hcond : ¬((storageRemove (storageRemove s SESSION_TOKEN)
          USER_DATA).path ≠ "/login" ∧
        (storageRemove (storageRemove s SESSION_TOKEN) USER_DATA).path ≠
          "/register") := by
      intro hcon
      rcases hor with h | h
      · exact hcon.1 h
      · exact hcon.2 h
    simp only [handleUnauthorized]
    rw [if_neg hcond]
    rfl
  · intro hatt
    have hc : noRetryCond CLIENT_RETRY_ATTEMPTS 1 e = true := by
      simp [noRetryCond, h401]
    rw [request_attempts_eq,
      retryRequest_stop CLIENT_RETRY_ATTEMPTS CLIENT_RETRY_DELAY
        outcomes 1 e hatt hc]

def c3OutcomesW : Nat → FetchOutcome :=
  fun _ => .ok 401 "Unauthorized" none

def c3ErrW : JsError :=
  mkApiError "HTTP 401: Unauthorized" 401 "HTTP_ERROR" (.obj [])

theorem request_401_clears_session_once_witness :
    (request stateW [] {} c3OutcomesW).result = .error c3ErrW ∧
    c3ErrW.status = some 401 ∧
    stateW.removals = [] ∧
    ((request stateW [] {} c3OutcomesW).state.removals =
      [SESSION_TOKEN, USER_DATA] ∧
     storageGet (request stateW [] {} c3OutcomesW).state SESSION_TOKEN =
      none ∧
     storageGet (request stateW [] {} c3OutcomesW).state USER_DATA =
      none ∧
     (stateW.path ≠ "/login" → stateW.path ≠ "/register" →
       (request stateW [] {} c3OutcomesW).state.href =
         some ("/login?redirect=" ++ encodeURIComponent stateW.path)) ∧
     ((stateW.path = "/login" ∨ stateW.path = "/register") →
       (request stateW [] {} c3OutcomesW).state.href = stateW.href) ∧
     (attemptResult (c3OutcomesW 1) = .error c3ErrW →
       (request stateW [] {} c3OutcomesW).attempts = 1)) := by
  have hres : (request stateW [] {} c3OutcomesW).result =
      .error c3ErrW := by
    rw [request_result_eq,
      retryRequest_stop CLIENT_RETRY_ATTEMPTS CLIENT_RETRY_DELAY
        c3OutcomesW 1 c3ErrW rfl (by decide)]
  exact ⟨hres, rfl, rfl,
    request_401_clears_session_once stateW [] {} c3OutcomesW c3ErrW
      hres rfl rfl⟩

def c3CexOutcomes : Nat → FetchOutcome :=
  fun _ => .ok 401 "Unauthorized" (some .null)

/-- C3 counterexample: a 401 response whose body is JSON `null` makes the
classifier throw the raw, status-less `TypeError` at `errorData.error`;
the retry loop then retries it twice (three attempts in total) and
`handleUnauthorized` never runs: nothing is removed from storage, the
token survives, and no redirect happens — refuting the claim for this
request terminating with a 401 response. -/
theorem request_401_null_body_not_cleared :
    c3CexOutcomes 1 = .ok 401 "Unauthorized" (some .null) ∧
    (request stateW [] {} c3CexOutcomes).attempts = 3 ∧
    (request stateW [] {} c3CexOutcomes).result =
      .error (typeErrorNullRead "error") ∧
    (request stateW [] {} c3CexOutcomes).state = stateW ∧
    (request stateW [] {} c3CexOutcomes).state.removals = [] ∧
    storageGet (request stateW [] {} c3CexOutcomes).state SESSION_TOKEN =
      some "tok123" := by
  have h1 := retryRequest_step 3 1000 c3CexOutcomes 1
    (typeErrorNullRead "error") rfl (by decide)
  have h2 := retryRequest_step 3 1000 c3CexOutcomes 2
    (typeErrorNullRead "error") rfl (by decide)
  have h3 := retryRequest_stop 3 1000 c3CexOutcomes 3
    (typeErrorNullRead "error") rfl (by decide)
  have hres : (retryRequest 3 1000 c3CexOutcomes 1).result =
      .error (typeErrorNullRead "error") := by
    rw [h1]
    show (retryRequest 3 1000 c3CexOutcomes 2).result = _
    rw [h2]
    show (retryRequest 3 1000 c3CexOutcomes 3).result = _
    rw [h3]
  have hatt : (retryRequest 3 1000 c3CexOutcomes 1).attempts = 3 := by
    rw [h1]
    show (retryRequest 3 1000 c3CexOutcomes 2).attempts + 1 = 3
    rw [h2]
    show (retryRequest 3 1000 c3CexOutcomes 3).attempts + 1 + 1 = 3
    rw [h3]
  have hstate : (request stateW [] {} c3CexOutcomes).state = stateW := by
    rw [request_error_state stateW [] {} c3CexOutcomes _ hres]
    rfl
  refine ⟨rfl, ?_, ?_, hstate, ?_, ?_⟩
  · rw [request_attempts_eq]
    exact hatt
  · rw [request_result_eq]
    exact hres
  · rw [hstate]
    rfl
  · rw [hstate]
    rfl

def c2Outcomes : Nat → FetchOutcome :=
  fun _ => .ok 500 "Internal Server Error"
    (some (.obj [("detail", .str "Token invalid")]))

def c2Err : JsError := mkApiError "Token invalid" 500 "API_ERROR" (.obj [])

/-- C2 counterexample: with these outcomes every attempt fails with a 5xx
HTTP status (a retryable error in the claim's sense), yet the client makes
exactly one attempt instead of min(N, 3) = 3: the retry loop's
auth-message carve-out (`error.message?.includes('Token')`) suppresses the
retry because the 500 body's `detail` message contains `'Token'`. -/
theorem request_5xx_token_message_single_attempt :
    attemptResult (c2Outcomes 1) = .error c2Err ∧
    c2Err.status = some 500 ∧
    (request stateW [] {} c2Outcomes).attempts = 1 ∧
    (request stateW [] {} c2Outcomes).result = .error c2Err := by
  refine ⟨rfl, rfl, ?_, ?_⟩
  · rw [request_attempts_eq,
      retryRequest_stop CLIENT_RETRY_ATTEMPTS CLIENT_RETRY_DELAY
        c2Outcomes 1 c2Err rfl (by decide)]
  · rw [request_result_eq,
      retryRequest_stop CLIENT_RETRY_ATTEMPTS CLIENT_RETRY_DELAY
        c2Outcomes 1 c2Err rfl (by decide)]

/-- C2 (amended): for every request whose (up to) first three attempts all
fail with a retryable error — a 5xx classified error or a network failure
— whose message is not the auth-timeout literal and does not contain
`'Authentication'` or `'Token'`, the client makes exactly min(N, 3) = 3
attempts with delays `1000 * 2^(k-1)` before the k-th retry, then raises
the classified error of the last attempt; a 4th attempt is never issued
(the outcome of attempt 4 is unconstrained and never consulted). -/
theorem request_retryable_failures_exhaust_ceiling (s : ClientState)
    (ints : List Interceptor) (opts : RequestOptions)
    (outcomes : Nat → FetchOutcome)
    (h : ∀ k, 1 ≤ k → k ≤ 3 → ∃ e,
      attemptResult (outcomes k) = .error e ∧ transientSafe e = true) :
    (request s ints opts outcomes).attempts = 3 ∧
    (request s ints opts outcomes).delays = [1000, 2000] ∧
    ∃ e, (request s ints opts outcomes).result = .error e ∧
      attemptResult (outcomes 3) = .error e := by
  obtain ⟨e1, he1, ht1⟩ := h 1 (by omega) (by omega)
  obtain ⟨e2, he2, ht2⟩ := h 2 (by omega) (by omega)
  obtain ⟨e3, he3, ht3⟩ := h 3 (by omega) (by omega)
  have hc1 := noRetryCond_false_of_transientSafe (outcomes 1) e1 1 he1 ht1
    (by omega)
  have hc2 := noRetryCond_false_of_transientSafe (outcomes 2) e2 2 he2 ht2
    (by omega)
  have hc3 : noRetryCond 3 3 e3 = true :=
    noRetryCond_of_ceiling 3 3 e3 (by omega)
  have hr3 := retryRequest_stop 3 1000 outcomes 3 e3 he3 hc3
  have hr2 := retryRequest_step 3 1000 outcomes 2 e2 he2 hc2
  have hr1 := retryRequest_step 3 1000 outcomes 1 e1 he1 hc1
  have hatt : (retryRequest 3 1000 outcomes 1).attempts = 3 := by
    rw [hr1]
    show (retryRequest 3 1000 outcomes 2).attempts + 1 = 3
    rw [hr2]
    show (retryRequest 3 1000 outcomes 3).attempts + 1 + 1 = 3
    rw [hr3]
  have hdel : (retryRequest 3 1000 outcomes 1).delays = [1000, 2000] := by
    rw [hr1]
    show 1000 * 2 ^ (1 - 1) :: (retryRequest 3 1000 outcomes 2).delays =
      [1000, 2000]
    rw [hr2]
    show 1000 * 2 ^ (1 - 1) :: 1000 * 2 ^ (2 - 1) ::
      (retryRequest 3 1000 outcomes 3).delays = [1000, 2000]
    rw [hr3]
    show 1000 * 2 ^ (1 - 1) :: 1000 * 2 ^ (2 - 1) :: ([] : List Nat) =
      [1000, 2000]
    decide
  have hresv : (retryRequest 3 1000 outcomes 1).result = .error e3 := by
    rw [hr1]
    show (retryRequest 3 1000 outcomes 2).result = .error e3
    rw [hr2]
    show (retryRequest 3 1000 outcomes 3).result = .error e3
    rw [hr3]
  refine ⟨?_, ?_, e3, ?_, he3⟩
  · rw [request_attempts_eq]
    exact hatt
  · rw [request_delays_eq]
    exact hdel
  · rw [request_result_eq]
    exact hresv

def c2AmOutcomesW : Nat → FetchOutcome :=
  fun _ => .ok 500 "Internal Server Error" none

def c2AmErrW : JsError :=
  mkApiError "HTTP 500: Internal Server Error" 500 "HTTP_ERROR" (.obj [])

theorem request_retryable_failures_exhaust_ceiling_witness :
    (∀ k, 1 ≤ k → k ≤ 3 → ∃ e,
      attemptResult (c2AmOutcomesW k) = .error e ∧
      transientSafe e = true) ∧
    ((request stateW [] {} c2AmOutcomesW).attempts = 3 ∧
     (request stateW [] {} c2AmOutcomesW).delays = [1000, 2000] ∧
     ∃ e, (request stateW [] {} c2AmOutcomesW).result = .error e ∧
       attemptResult (c2AmOutcomesW 3) = .error e) := by
  have hk : ∀ k, 1 ≤ k → k ≤ 3 → ∃ e,
      attemptResult (c2AmOutcomesW k) = .error e ∧
      transientSafe e = true :=
    fun _ _ _ => ⟨c2AmErrW, rfl, by decide⟩
  exact ⟨hk,
    request_retryable_failures_exhaust_ceiling stateW [] {} c2AmOutcomesW
      hk⟩

def c5Outcomes : Nat → FetchOutcome := fun _ => .abortError

/-- C5 counterexample: a Timeout error — one of the claim's transient
classes — is not retried: the request makes exactly one attempt, with no
backoff delay, and the timeout error propagates immediately. -/
theorem request_timeout_not_retried :
    attemptResult (c5Outcomes 1) = .error timeoutError ∧
    (request stateW [] {} c5Outcomes).attempts = 1 ∧
    (request stateW [] {} c5Outcomes).delays = [] ∧
    (request stateW [] {} c5Outcomes).result = .error timeoutError := by
  have hstop := retryRequest_stop CLIENT_RETRY_ATTEMPTS
    CLIENT_RETRY_DELAY c5Outcomes 1 timeoutError rfl (by decide)
  refine ⟨rfl, ?_, ?_, ?_⟩
  · rw [request_attempts_eq, hstop]
  · rw [request_delays_eq, hstop]
  · rw [request_result_eq, hstop]

/-- C5 (amended): a first-attempt failure of class Network or 5xx whose
message avoids the code's auth keywords is retried locally with backoff (a
second attempt occurs, preceded by the base 1000 ms delay); Timeout errors
and the 401/403/404/422 statuses propagate immediately after exactly one
attempt with no delay. -/
theorem request_retry_class_characterization (s : ClientState)
    (ints : List Interceptor) (opts : RequestOptions)
    (outcomes : Nat → FetchOutcome) (e : JsError)
    (he : attemptResult (outcomes 1) = .error e) :
    (transientSafe e = true →
      2 ≤ (request s ints opts outcomes).attempts ∧
      (request s ints opts outcomes).delays.head? = some 1000) ∧
    ((e.name = "TimeoutError" ∨ e.status = some 401 ∨
      e.status = some 403 ∨ e.status = some 404 ∨ e.status = some 422) →
      (request s ints opts outcomes).attempts = 1 ∧
      (request s ints opts outcomes).delays = []) := by
  constructor
  · intro ht
    have hc := noRetryCond_false_of_transientSafe (outcomes 1) e 1 he ht
      (by omega)
    have hstep := retryRequest_step 3 1000 outcomes 1 e he hc
    constructor
    · rw [request_attempts_eq]
      show 2 ≤ (retryRequest 3 1000 outcomes 1).attempts
      rw [hstep]
      show 2 ≤ (retryRequest 3 1000 outcomes 2).attempts + 1
      have := retryRequest_attempts_pos 3 1000 outcomes 1 2 (by omega)
      omega
    · rw [request_delays_eq]
      show (retryRequest 3 1000 outcomes 1).delays.head? = some 1000
      rw [hstep]
      rfl
  · intro hk
    have hc : noRetryCond CLIENT_RETRY_ATTEMPTS 1 e = true := by
      rcases hk with h | h | h | h | h <;> simp [noRetryCond, h]
    have hstop := retryRequest_stop CLIENT_RETRY_ATTEMPTS
      CLIENT_RETRY_DELAY outcomes 1 e he hc
    exact ⟨by rw [request_attempts_eq, hstop],
      by rw [request_delays_eq, hstop]⟩

def c5AmOutcomesW : Nat → FetchOutcome := fun _ => .fetchTypeError

theorem request_retry_class_characterization_witness :
    attemptResult (c5AmOutcomesW 1) = .error networkError ∧
    ((transientSafe networkError = true →
      2 ≤ (request stateW [] {} c5AmOutcomesW).attempts ∧
      (request stateW [] {} c5AmOutcomesW).delays.head? = some 1000) ∧
     ((networkError.name = "TimeoutError" ∨
       networkError.status = some 401 ∨ networkError.status = some 403 ∨
       networkError.status = some 404 ∨ networkError.status = some 422) →
      (request stateW [] {} c5AmOutcomesW).attempts = 1 ∧
      (request stateW [] {} c5AmOutcomesW).delays = [])) :=
  ⟨rfl, request_retry_class_characterization stateW [] {} c5AmOutcomesW
    networkError rfl⟩

def c6Outcomes : Nat → FetchOutcome := fun _ => .ok 200 "OK" none

/-- C6 counterexample: a request whose 200 response has an unparseable
body terminates with the raw `SyntaxError` thrown by `response.json()` —
an error whose name is none of the classified kinds — crossing the client
boundary unwrapped (after being retried like any unrecognized error). -/
theorem request_parse_failure_escapes_raw :
    (request stateW [] {} c6Outcomes).result = .error jsonSyntaxError ∧
    jsonSyntaxError.name ≠ "ApiError" ∧
    jsonSyntaxError.name ≠ "NetworkError" ∧
    jsonSyntaxError.name ≠ "TimeoutError" := by
  have h1 := retryRequest_step 3 1000 c6Outcomes 1 jsonSyntaxError rfl
    (by decide)
  have h2 := retryRequest_step 3 1000 c6Outcomes 2 jsonSyntaxError rfl
    (by decide)
  have h3 := retryRequest_stop 3 1000 c6Outcomes 3 jsonSyntaxError rfl
    (by decide)
  refine ⟨?_, by decide, by decide, by decide⟩
  rw [request_result_eq]
  show (retryRequest 3 1000 c6Outcomes 1).result = .error jsonSyntaxError
  rw [h1]
  show (retryRequest 3 1000 c6Outcomes 2).result = .error jsonSyntaxError
  rw [h2]
  show (retryRequest 3 1000 c6Outcomes 3).result = .error jsonSyntaxError
  rw [h3]

/-- Boolean marker for a parsed non-2xx body on which `handleErrorResponse`
ends in a raw `TypeError`: the body is JSON `null`, or its `detail` list
makes the validation `forEach` throw. -/
def classifyThrows : Option Json → Bool
  | some .null => true
  | some errorData => classifyBodyThrows errorData
  | none => false

/-- An outcome at which a raw, unclassified exception escapes the attempt:
a 2xx non-204 response with an unparseable body (raw `SyntaxError`), or a
non-2xx response whose body classification throws a raw `TypeError`. -/
def rawEscapeOutcome : FetchOutcome → Bool
  | .ok st _ body =>
      if 200 ≤ st ∧ st < 300 then
        if st = 204 then false
        else body.isNone
      else classifyThrows body
  | _ => false

/-- The error names belonging to the client's classified taxonomy. -/
def classifiedName (n : String) : Bool :=
  n == "ApiError" || n == "NetworkError" || n == "TimeoutError"

theorem handleErrorResponse_classified_of_not_throws (status : Nat)
    (statusText : String) (body : Option Json)
    (h : classifyThrows body = false) :
    (handleErrorResponse status statusText body).name = "ApiError" := by
  cases body with
  | none => rfl
  | some errorData =>
      by_cases hnn : errorData = Json.null
      · subst hnn
        exact absurd h (by decide)
      · rw [handleErrorResponse_some_eq status statusText errorData hnn]
        have hct : classifyBodyThrows errorData = false := by
          rw [← h]
          cases errorData
          case null => exact absurd rfl hnn
          all_goals rfl
        rcases classifyErrorBody_cases status errorData with
          ⟨hn, _, _⟩ | ⟨_, _, h3⟩
        · exact hn
        · rw [hct] at h3
          exact Bool.noConfusion h3

theorem attemptResult_classified (o : FetchOutcome) (e : JsError)
    (hp : rawEscapeOutcome o = false) (h : attemptResult o = .error e) :
    classifiedName e.name = true := by
  cases o with
  | ok st txt b =>
      simp only [attemptResult] at h
      by_cases hst : 200 ≤ st ∧ st < 300
      · rw [if_pos hst] at h
        by_cases h204 : st = 204
        · rw [if_pos h204] at h
          cases h
        · rw [if_neg h204] at h
          cases b with
          | some d => cases h
          | none =>
              have hpt : rawEscapeOutcome (.ok st txt none) = true := by
                simp [rawEscapeOutcome, hst, h204]
              rw [hpt] at hp
              simp at hp
      · rw [if_neg hst] at h
        have hct : classifyThrows b = false := by
          have hre : rawEscapeOutcome (.ok st txt b) = classifyThrows b := by
            simp [rawEscapeOutcome, hst]
          rw [← hre]
          exact hp
        have heq : handleErrorResponse st txt b = e := Except.error.inj h
        have hn := handleErrorResponse_classified_of_not_throws st txt b hct
        rw [← heq]
        simp [classifiedName, hn]
  | abortError =>
      have heq : timeoutError = e := Except.error.inj h
      rw [← heq]
      decide
  | fetchTypeError =>
      have heq : networkError = e := Except.error.inj h
      rw [← heq]
      decide

theorem retryRequest_error_classified (ra rd : Nat)
    (outcomes : Nat → FetchOutcome)
    (hp : ∀ k, rawEscapeOutcome (outcomes k) = false) :
    ∀ n attempt e, ra - attempt ≤ n →
      (retryRequest ra rd outcomes attempt).result = .error e →
      classifiedName e.name = true := by
  intro n
  induction n with
  | zero =>
      intro attempt e h hres
      match he : attemptResult (outcomes attempt) with
      | .ok v =>
          rw [retryRequest_ok ra rd outcomes attempt v he] at hres
          simp at hres
      | .error e' =>
          have hc := noRetryCond_of_ceiling ra attempt e' (by omega)
          rw [retryRequest_stop ra rd outcomes attempt e' he hc] at hres
          have herr : Except.error e' = Except.error (ε := JsError) e :=
            hres
          have he2 : e' = e := Except.error.inj herr
          rw [← he2]
          exact attemptResult_classified (outcomes attempt) e'
            (hp attempt) he
  | succ n ih =>
      intro attempt e h hres
      match he : attemptResult (outcomes attempt) with
      | .ok v =>
          rw [retryRequest_ok ra rd outcomes attempt v he] at hres
          simp at hres
      | .error e' =>
          cases hc : noRetryCond ra attempt e' with
          | true =>
              rw [retryRequest_stop ra rd outcomes attempt e' he hc]
                at hres
              have herr : Except.error e' = Except.error (ε := JsError) e :=
                hres
              have he2 : e' = e := Except.error.inj herr
              rw [← he2]
              exact attemptResult_classified (outcomes attempt) e'
                (hp attempt) he
          | false =>
              have hlt := noRetryCond_false_lt ra attempt e' hc
              rw [retryRequest_step ra rd outcomes attempt e' he hc]
                at hres
              exact ih (attempt + 1) e (by omega) hres

/-- C6 (amended): every terminal failure of a request carries one of the
classified error names (ApiError, NetworkError, TimeoutError) — provided
no attempt sees an outcome at which the source throws raw: a 2xx, non-204
response with an unparseable body escapes as the raw `SyntaxError`, and a
non-2xx response whose body is JSON `null`, or whose `detail` list holds a
`null` entry or an entry with a truthy non-array `loc`, escapes as the raw
`TypeError` thrown during classification. -/
theorem request_failures_classified (s : ClientState)
    (ints : List Interceptor) (opts : RequestOptions)
    (outcomes : Nat → FetchOutcome) (e : JsError)
    (hp : ∀ k, rawEscapeOutcome (outcomes k) = false)
    (hres : (request s ints opts outcomes).result = .error e) :
    e.name = "ApiError" ∨ e.name = "NetworkError" ∨
      e.name = "TimeoutError" := by
  have hr : (retryRequest CLIENT_RETRY_ATTEMPTS CLIENT_RETRY_DELAY
      outcomes 1).result = .error e := by
    rw [← request_result_eq s ints opts outcomes]
    exact hres
  have hcl := retryRequest_error_classified CLIENT_RETRY_ATTEMPTS
    CLIENT_RETRY_DELAY outcomes hp 2 1 e (by decide) hr
  simp only [classifiedName, Bool.or_eq_true, beq_iff_eq] at hcl
  tauto

def c6AmOutcomesW : Nat → FetchOutcome :=
  fun _ => .ok 404 "Missing" none

def c6AmErrW : JsError :=
  mkApiError "HTTP 404: Missing" 404 "HTTP_ERROR" (.obj [])

theorem request_failures_classified_witness :
    (∀ k, rawEscapeOutcome (c6AmOutcomesW k) = false) ∧
    (request stateW [] {} c6AmOutcomesW).result = .error c6AmErrW ∧
    (c6AmErrW.name = "ApiError" ∨ c6AmErrW.name = "NetworkError" ∨
      c6AmErrW.name = "TimeoutError") := by
  have hres : (request stateW [] {} c6AmOutcomesW).result =
      .error c6AmErrW := by
    rw [request_result_eq,
      retryRequest_stop CLIENT_RETRY_ATTEMPTS CLIENT_RETRY_DELAY
        c6AmOutcomesW 1 c6AmErrW rfl (by decide)]
  exact ⟨fun _ => rfl, hres,
    request_failures_classified stateW [] {} c6AmOutcomesW c6AmErrW
      (fun _ => rfl) hres⟩

theorem applyRequestInterceptors_append (pre post : List Interceptor)
    (c : RequestConfig) :
    applyRequestInterceptors (pre ++ post) c =
      applyRequestInterceptors post (applyRequestInterceptors pre c) := by
  simp [applyRequestInterceptors, List.foldl_append]

/-- C8: a throwing request interceptor is swallowed: the chain continues
from the config as of the last successful interceptor before it, and the
request still dispatches — at least one attempt is always made — with
exactly that chain result as its descriptor. -/
theorem request_interceptor_failure_swallowed (s : ClientState)
    (pre post : List Interceptor) (f : Interceptor) (m : String)
    (opts : RequestOptions) (outcomes : Nat → FetchOutcome)
    (hf : f (applyRequestInterceptors
      (authInterceptor (storageGet s SESSION_TOKEN) :: pre)
      (buildInitialConfig opts)) = .error m) :
    (request s (pre ++ f :: post) opts outcomes).dispatched =
      applyRequestInterceptors post
        (applyRequestInterceptors
          (authInterceptor (storageGet s SESSION_TOKEN) :: pre)
          (buildInitialConfig opts)) ∧
    1 ≤ (request s (pre ++ f :: post) opts outcomes).attempts := by
  constructor
  · rw [request_dispatched_eq]
    have hsplit : authInterceptor (storageGet s SESSION_TOKEN) ::
        (pre ++ f :: post) =
        (authInterceptor (storageGet s SESSION_TOKEN) :: pre) ++
          (f :: post) := by
      simp
    rw [hsplit, applyRequestInterceptors_append]
    generalize hacc : applyRequestInterceptors
      (authInterceptor (storageGet s SESSION_TOKEN) :: pre)
      (buildInitialConfig opts) = acc at hf ⊢
    simp only [applyRequestInterceptors, List.foldl_cons]
    rw [hf]
  · rw [request_attempts_eq]
    exact retryRequest_attempts_pos CLIENT_RETRY_ATTEMPTS
      CLIENT_RETRY_DELAY outcomes 2 1 (by decide)

def c8Fail : Interceptor := fun _ => .error "interceptor boom"

def c8OutcomesW : Nat → FetchOutcome :=
  fun _ => .ok 200 "OK" (some (.obj [("id", .num 1)]))

theorem request_interceptor_failure_swallowed_witness :
    c8Fail (applyRequestInterceptors
      (authInterceptor (storageGet stateW SESSION_TOKEN) :: [])
      (buildInitialConfig {})) = .error "interceptor boom" ∧
    ((request stateW ([] ++ c8Fail :: []) {} c8OutcomesW).dispatched =
      applyRequestInterceptors []
        (applyRequestInterceptors
          (authInterceptor (storageGet stateW SESSION_TOKEN) :: [])
          (buildInitialConfig {})) ∧
     1 ≤ (request stateW ([] ++ c8Fail :: []) {} c8OutcomesW).attempts) :=
  ⟨rfl, request_interceptor_failure_swallowed stateW [] [] c8Fail
    "interceptor boom" {} c8OutcomesW rfl⟩

/-- The headers the default auth interceptor adds for a given stored
token. -/
def authHeadersOf (token : Option String) : List (String × String) :=
  match token with
  | some t => [("Authorization", "Bearer " ++ t)]
  | none => []

theorem authInterceptor_headers (token : Option String)
    (c : RequestConfig) :
    authInterceptor token c =
      .ok { c with
            headers := mergeProps c.headers (authHeadersOf token) } := by
  cases token <;> rfl

/-- C10: when the caller's options carry a `headers` field, the dispatched
descriptor's headers are exactly the caller-supplied object plus the
default interceptor's `Authorization` entry: the configured default
headers (`Content-Type`, `Accept`) are dropped because the trailing spread
of `options` overwrites the merged headers; in particular `postForm`
(called without caller headers) dispatches with neither `Content-Type` nor
`Accept`. -/
theorem request_caller_headers_drop_defaults (s : ClientState)
    (opts : RequestOptions) (h : List (String × String))
    (hh : opts.headers = some h) (outcomes : Nat → FetchOutcome)
    (formBody : Json) :
    (request s [] opts outcomes).dispatched.headers =
      mergeProps h (authHeadersOf (storageGet s SESSION_TOKEN)) ∧
    lookupProp (postFormRun s formBody {} outcomes).dispatched.headers
      "Content-Type" = none ∧
    lookupProp (postFormRun s formBody {} outcomes).dispatched.headers
      "Accept" = none := by
  have hbuild : (buildInitialConfig opts).headers = h := by
    simp [buildInitialConfig, hh]
  have hpf : (postFormRun s formBody {} outcomes).dispatched.headers =
      mergeProps [] (authHeadersOf (storageGet s SESSION_TOKEN)) := by
    show (request s [] (postFormOptions formBody {})
      outcomes).dispatched.headers = _
    rw [request_dispatched_eq]
    simp only [applyRequestInterceptors, List.foldl_cons, List.foldl_nil]
    rw [authInterceptor_headers]
    rfl
  refine ⟨?_, ?_, ?_⟩
  · rw [request_dispatched_eq]
    simp only [applyRequestInterceptors, List.foldl_cons, List.foldl_nil]
    rw [authInterceptor_headers]
    show mergeProps (buildInitialConfig opts).headers
      (authHeadersOf (storageGet s SESSION_TOKEN)) = _
    rw [hbuild]
  · rw [hpf]
    cases storageGet s SESSION_TOKEN <;> rfl
  · rw [hpf]
    cases storageGet s SESSION_TOKEN <;> rfl

def c10OptsW : RequestOptions := { headers := some [("X-Custom", "1")] }

theorem request_caller_headers_drop_defaults_witness :
    c10OptsW.headers = some [("X-Custom", "1")] ∧
    ((request stateW [] c10OptsW c8OutcomesW).dispatched.headers =
      mergeProps [("X-Custom", "1")]
        (authHeadersOf (storageGet stateW SESSION_TOKEN)) ∧
     lookupProp (postFormRun stateW (.obj []) {}
       c8OutcomesW).dispatched.headers "Content-Type" = none ∧
     lookupProp (postFormRun stateW (.obj []) {}
       c8OutcomesW).dispatched.headers "Accept" = none) :=
  ⟨rfl, request_caller_headers_drop_defaults stateW c10OptsW
    [("X-Custom", "1")] rfl c8OutcomesW (.obj [])⟩

def c4Body : Json :=
  .obj [("error", .obj [("message", .str "boom"), ("code", .str "X")]),
        ("detail", .arr [.obj [("loc", .arr [.str "body", .str "email"]),
                               ("msg", .str "invalid")]])]

/-- C4 counterexample: this 422 body parses to an object whose `detail`
field is a well-formed list of loc/msg entries, yet the classifier takes
the `error` branch first: the request fails with code `X` and an empty
details object — not a Validation error, and with no field map at all. -/
theorem handleErrorResponse_detail_shadowed_by_error_field :
    getField c4Body "detail" =
      some (.arr [.obj [("loc", .arr [.str "body", .str "email"]),
                        ("msg", .str "invalid")]]) ∧
    handleErrorResponse 422 "Unprocessable Entity" (some c4Body) =
      mkApiError "boom" 422 "X" (.obj []) :=
  ⟨rfl, rfl⟩

/-- A well-formed FastAPI validation entry with `loc` path `l` and message
`m`. -/
def mkValidationEntry (l : List String) (m : String) : Json :=
  .obj [("loc", .arr (l.map .str)), ("msg", .str m)]

/-- The joined `loc` path, `loc.join('.')`. -/
def joinLoc (l : List String) : String := String.intercalate "." l

theorem getField_mkValidationEntry_loc (l : List String) (m : String) :
    getField (mkValidationEntry l m) "loc" = some (.arr (l.map .str)) :=
  rfl

theorem getField_mkValidationEntry_msg (l : List String) (m : String) :
    getField (mkValidationEntry l m) "msg" = some (.str m) :=
  rfl

theorem locKey_mkValidationEntry (l : List String) (m : String)
    (hne : joinLoc l ≠ "") :
    locKey (mkValidationEntry l m) = .ok (joinLoc l) := by
  have hj : (l.map Json.str).map jsToString = l := by
    have hcomp : jsToString ∘ Json.str = id := by
      funext x
      rfl
    rw [List.map_map, hcomp, List.map_id]
  show Except.ok
      (if String.intercalate "." ((l.map Json.str).map jsToString) == ""
        then "unknown"
        else String.intercalate "." ((l.map Json.str).map jsToString)) =
    Except.ok (ε := JsError) (joinLoc l)
  rw [hj, if_neg]
  · rfl
  · simpa [joinLoc] using hne

theorem lookupProp_of_nodup {α : Type} (ps : List (String × α))
    (hnd : (ps.map Prod.fst).Nodup) (q : String × α) (hq : q ∈ ps) :
    lookupProp ps q.fst = some q.snd := by
  induction ps with
  | nil => cases hq
  | cons hd tl ih =>
      have hnodups := List.nodup_cons.mp hnd
      rcases List.mem_cons.mp hq with rfl | hmem
      · simp [lookupProp, List.find?_cons]
      · have hqm : q.fst ∈ tl.map Prod.fst := List.mem_map_of_mem _ hmem
        have hneq : (hd.fst == q.fst) = false := by
          have : hd.fst ≠ q.fst := fun hx => hnodups.1 (hx ▸ hqm)
          simpa using this
        simp only [lookupProp, List.find?_cons, hneq]
        exact ih hnodups.2 hmem

theorem setProp_not_mem {α : Type} (m : List (String × α)) (k : String)
    (v : α) (h : m.any (fun p => p.fst == k) = false) :
    setProp m k v = m ++ [(k, v)] := by
  simp [setProp, h]

theorem fieldErrorsLoop_fresh (entries : List (List String × String)) :
    ∀ acc : List (String × Json),
      (∀ p ∈ entries, acc.any (fun q => q.fst == joinLoc p.1) = false) →
      (entries.map (fun p => joinLoc p.1)).Nodup →
      (∀ p ∈ entries, joinLoc p.1 ≠ "") →
      fieldErrorsLoop (entries.map (fun p => mkValidationEntry p.1 p.2))
        acc =
        .ok (acc ++
          entries.map (fun p => (joinLoc p.1, Json.str p.2))) := by
  induction entries with
  | nil =>
      intro acc _ _ _
      simp [fieldErrorsLoop]
  | cons hd tl ih =>
      intro acc hfresh hnd hne
      have hlk := locKey_mkValidationEntry hd.1 hd.2 (hne hd (by simp))
      simp only [List.map_cons, fieldErrorsLoop, hlk,
        getField_mkValidationEntry_msg, Option.getD_some]
      rw [setProp_not_mem acc (joinLoc hd.1) (Json.str hd.2)
        (hfresh hd (by simp))]
      have hnodups := List.nodup_cons.mp hnd
      have hstep := ih (acc ++ [(joinLoc hd.1, Json.str hd.2)]) ?fresh
        hnodups.2 (fun p hp => hne p (List.mem_cons_of_mem hd hp))
      · rw [hstep]
        simp
      case fresh =>
        intro p hp
        simp only [List.any_append, Bool.or_eq_false_iff]
        refine ⟨hfresh p (List.mem_cons_of_mem hd hp), ?_⟩
        simp only [List.any_cons, List.any_nil, Bool.or_false]
        have hqm : joinLoc p.1 ∈ tl.map (fun q => joinLoc q.1) :=
          List.mem_map_of_mem _ hp
        have hhd : joinLoc hd.1 ∉ tl.map (fun q => joinLoc q.1) := by
          simpa using hnodups.1
        have hneq : joinLoc hd.1 ≠ joinLoc p.1 := fun hx =>
          hhd (hx ▸ hqm)
        simpa using hneq

theorem fieldErrorsOf_wellformed (entries : List (List String × String))
    (hne : ∀ p ∈ entries, joinLoc p.1 ≠ "")
    (hnd : (entries.map (fun p => joinLoc p.1)).Nodup) :
    fieldErrorsOf (entries.map (fun p => mkValidationEntry p.1 p.2)) =
      .ok (entries.map (fun p => (joinLoc p.1, Json.str p.2))) := by
  unfold fieldErrorsOf
  rw [fieldErrorsLoop_fresh entries [] (fun _ _ => rfl) hnd hne]
  simp

/-- C4 (amended): for every non-2xx response whose body parses to an
object with no truthy `error` field and whose `detail` field is a list of
well-formed loc/msg entries with nonempty, pairwise-distinct joined loc
paths, the attempt fails with the Validation classification — message
`Validation failed`, code `VALIDATION_ERROR`, the response status — and a
field map holding, for each entry, the key `loc.join('.')` with that
entry's `msg` as value. -/
theorem request_validation_error_field_map (st : Nat) (txt : String)
    (body : Json) (entries : List (List String × String))
    (hst : ¬(200 ≤ st ∧ st < 300))
    (herr : truthyField body "error" = false)
    (hdet : getField body "detail" =
      some (.arr (entries.map (fun p => mkValidationEntry p.1 p.2))))
    (hne : ∀ p ∈ entries, joinLoc p.1 ≠ "")
    (hnd : (entries.map (fun p => joinLoc p.1)).Nodup) :
    attemptResult (.ok st txt (some body)) =
      .error (handleErrorResponse st txt (some body)) ∧
    (handleErrorResponse st txt (some body)).message =
      "Validation failed" ∧
    (handleErrorResponse st txt (some body)).code =
      some "VALIDATION_ERROR" ∧
    (handleErrorResponse st txt (some body)).status = some st ∧
    (handleErrorResponse st txt (some body)).details =
      .obj [("fieldErrors",
        .obj (entries.map (fun q => (joinLoc q.1, Json.str q.2))))] ∧
    ∀ p ∈ entries,
      lookupProp (entries.map (fun q => (joinLoc q.1, Json.str q.2)))
        (joinLoc p.1) = some (.str p.2) := by
  have hdT : truthyField body "detail" = true := by
    simp [truthyField, hdet, truthy]
  have hnn : body ≠ Json.null := by
    intro hb
    rw [hb] at hdet
    exact Option.noConfusion hdet
  have hfe := fieldErrorsOf_wellformed entries hne hnd
  have hred : handleErrorResponse st txt (some body) =
      mkApiError "Validation failed" st "VALIDATION_ERROR"
        (.obj [("fieldErrors",
          .obj (entries.map (fun q => (joinLoc q.1, Json.str q.2))))]) := by
    rw [handleErrorResponse_some_eq st txt body hnn]
    simp only [classifyErrorBody, herr, hdT, hdet, Option.getD_some,
      Bool.false_eq_true, if_false, if_true, hfe]
  have hndmap : ((entries.map
      (fun q => (joinLoc q.1, Json.str q.2))).map Prod.fst).Nodup := by
    rw [List.map_map]
    simpa [Function.comp] using hnd
  refine ⟨?_, ?_, ?_, ?_, ?_, ?_⟩
  · simp [attemptResult, hst]
  · rw [hred]
    rfl
  · rw [hred]
    rfl
  · rw [hred]
    rfl
  · simp only [hred, mkApiError]
  · intro p hp
    exact lookupProp_of_nodup
      (entries.map (fun q => (joinLoc q.1, Json.str q.2))) hndmap
      (joinLoc p.1, Json.str p.2) (List.mem_map_of_mem _ hp)

def c4EntriesW : List (List String × String) :=
  [(["body", "email"], "invalid")]

def c4BodyW : Json :=
  .obj [("detail",
    .arr (c4EntriesW.map (fun p => mkValidationEntry p.1 p.2)))]

theorem request_validation_error_field_map_witness :
    (¬(200 ≤ 422 ∧ 422 < 300)) ∧
    truthyField c4BodyW "error" = false ∧
    getField c4BodyW "detail" =
      some (.arr (c4EntriesW.map (fun p => mkValidationEntry p.1 p.2))) ∧
    (∀ p ∈ c4EntriesW, joinLoc p.1 ≠ "") ∧
    (c4EntriesW.map (fun p => joinLoc p.1)).Nodup ∧
    (attemptResult (.ok 422 "Unprocessable Entity" (some c4BodyW)) =
      .error (handleErrorResponse 422 "Unprocessable Entity"
        (some c4BodyW)) ∧
     (handleErrorResponse 422 "Unprocessable Entity"
       (some c4BodyW)).message = "Validation failed" ∧
     (handleErrorResponse 422 "Unprocessable Entity"
       (some c4BodyW)).code = some "VALIDATION_ERROR" ∧
     (handleErrorResponse 422 "Unprocessable Entity"
       (some c4BodyW)).status = some 422 ∧
     (handleErrorResponse 422 "Unprocessable Entity"
       (some c4BodyW)).details =
       .obj [("fieldErrors",
         .obj (c4EntriesW.map (fun q => (joinLoc q.1, Json.str q.2))))] ∧
     ∀ p ∈ c4EntriesW,
       lookupProp (c4EntriesW.map (fun q => (joinLoc q.1, Json.str q.2)))
         (joinLoc p.1) = some (.str p.2)) := by
  have hne : ∀ p ∈ c4EntriesW, joinLoc p.1 ≠ "" := by decide
  have hnd : (c4EntriesW.map (fun p => joinLoc p.1)).Nodup := by decide
  exact ⟨by decide, rfl, rfl, hne, hnd,
    request_validation_error_field_map 422 "Unprocessable Entity" c4BodyW
      c4EntriesW (by decide) rfl rfl hne hnd⟩
